import Mathlib

/-!
Verification of the hotspot search/aggregation core of
`location-analysis/location.py` (class `HotspotFinder`).

The external search API (`serpapi.GoogleSearch`) is modelled as explicit
inputs: a per-query response of type `Except String (Option (List ApiPlace))`
(`.error` = the call raised, `.ok none` = no "local_results" key,
`.ok (some l)` = the raw hit list), and the identifier-resolution response
as `Except String ResolveResults`.  Python floats are modelled as `ℚ` in the
aggregation pipeline; the Haversine formula itself (`calculate_distance`)
is modelled over `ℝ`.  The float Haversine value flowing through
`search_nearby_places` is abstracted as a parameter
`calcDist : ℚ → ℚ → ℚ → ℚ → ℚ`, so theorems about filtering, rounding,
deduplication and sorting hold for the actual distance function as well.
-/

namespace HotspotFinder

/-- One raw place hit, the dictionary shape used by the source for entries of
`results["local_results"]` and for `results["place_info"]`.  Every field is
optional: `place.get(key)` yields `None` for an absent key. -/
structure ApiPlace where
  title : Option String := none
  address : Option String := none
  gps_latitude : Option ℚ := none
  gps_longitude : Option ℚ := none
  rating : Option ℚ := none
  reviews : Option ℤ := none
  price : Option String := none
  type : Option String := none
  data_id : Option String := none
  place_id : Option String := none
  phone : Option String := none
  website : Option String := none
  hours : Option String := none
  deriving DecidableEq, Repr

/-- The `place_data` dictionary built in `search_nearby_places`
(location.py lines 140-156). -/
structure PlaceData where
  name : String
  address : String
  rating : Option ℚ
  reviews_count : Option ℤ
  price_level : Option String
  type : String
  latitude : ℚ
  longitude : ℚ
  distance_km : ℚ
  data_id : Option String
  place_id : Option String
  phone : Option String
  website : Option String
  hours : Option String
  category : String
  deriving DecidableEq, Repr

/-- The `location_data` dictionary built in `get_restaurant_location`
(location.py lines 58-79). -/
structure LocationData where
  name : String
  address : String
  latitude : Option ℚ
  longitude : Option ℚ
  rating : Option ℚ
  reviews_count : Option ℤ
  data_id : Option String
  place_id : Option String
  deriving DecidableEq, Repr

/-- The response dictionary of the identifier-resolution call: presence of the
`place_info` key and of the `local_results` key. -/
structure ResolveResults where
  place_info : Option ApiPlace := none
  local_results : Option (List ApiPlace) := none
  deriving DecidableEq, Repr

/-- Python truthiness of an optional float: `None` and `0` are falsy.  This is
the test `coords.get("latitude") and coords.get("longitude")` (line 132) and
`not location_data["latitude"]` (line 84) apply to coordinates. -/
def optTruthy : Option ℚ → Bool
  | none => false
  | some v => v != 0

/-- The rounding `round(distance, 2)` of line 149: round to two decimal places. -/
def round2 (d : ℚ) : ℚ := (round (d * 100) : ℤ) / 100

/-- The table `self.hotspot_categories` (lines 15-23): the fixed taxonomy, an ordered
mapping category → query terms. -/
def hotspot_categories : List (String × List String) :=
  [("tourist_attractions",
      ["tourist attraction", "monument", "museum", "temple", "church",
       "historical place"]),
   ("restaurants", ["restaurant", "cafe", "food court", "bar", "pub"]),
   ("shopping", ["shopping mall", "market", "shopping center", "store"]),
   ("entertainment",
      ["movie theater", "amusement park", "night club", "sports complex"]),
   ("accommodation", ["hotel", "resort", "guest house"]),
   ("services", ["hospital", "bank", "ATM", "gas station", "pharmacy"]),
   ("parks", ["park", "garden", "zoo", "lake", "beach"])]

/-- The loop of lines 129-157: walk `local_results` in order; keep a hit only
if both coordinates are truthy (present and nonzero) and its computed distance
is at most the radius; normalize kept hits into `PlaceData` records. -/
def processHits (calcDist : ℚ → ℚ → ℚ → ℚ → ℚ) (center_lat center_lon : ℚ)
    (query : String) (radius_km : ℤ) : List ApiPlace → List PlaceData
  | [] => []
  | place :: rest =>
    let tail := processHits calcDist center_lat center_lon query radius_km rest
    if optTruthy place.gps_latitude && optTruthy place.gps_longitude then
      let lat := place.gps_latitude.getD 0
      let lon := place.gps_longitude.getD 0
      let distance := calcDist center_lat center_lon lat lon
      if distance ≤ (radius_km : ℚ) then
        { name := place.title.getD "Unknown"
          address := place.address.getD "Unknown Address"
          rating := place.rating
          reviews_count := place.reviews
          price_level := place.price
          type := place.type.getD "Unknown"
          latitude := lat
          longitude := lon
          distance_km := round2 distance
          data_id := place.data_id
          place_id := place.place_id
          phone := place.phone
          website := place.website
          hours := place.hours
          category := query } :: tail
      else tail
    else tail

/-- The method `search_nearby_places` (lines 110-163): a raised exception or a missing
`local_results` key both yield the empty list; otherwise the hits are
filtered and normalized by `processHits`. -/
def search_nearby_places (calcDist : ℚ → ℚ → ℚ → ℚ → ℚ)
    (center_lat center_lon : ℚ) (query : String) (radius_km : ℤ)
    (apiResult : Except String (Option (List ApiPlace))) : List PlaceData :=
  match apiResult with
  | .error _ => []
  | .ok none => []
  | .ok (some local_results) =>
      processHits calcDist center_lat center_lon query radius_km local_results

/-- Python's `str.lower()`: lowercase a string character by character. -/
def lowerStr (s : String) : String := ⟨s.data.map Char.toLower⟩

/-- The duplicate test of lines 192-193: case-insensitive equality of both
name and address. -/
def isDuplicateOf (existing place : PlaceData) : Bool :=
  lowerStr existing.name == lowerStr place.name &&
    lowerStr existing.address == lowerStr place.address

/-- The inner loop of lines 189-198: append each new place to the accumulator
unless some already-accumulated record is a duplicate of it. -/
def addNonDuplicates (acc : List PlaceData) : List PlaceData → List PlaceData
  | [] => acc
  | place :: rest =>
    if acc.any (fun existing => isDuplicateOf existing place) then
      addNonDuplicates acc rest
    else
      addNonDuplicates (acc ++ [place]) rest

/-- The sort key of line 204, as a Boolean order on records. -/
def distLe (a b : PlaceData) : Bool := decide (a.distance_km ≤ b.distance_km)

/-- Lines 185-198: fold the query terms of one category, accumulating
deduplicated records. -/
def accumulateCategory (calcDist : ℚ → ℚ → ℚ → ℚ → ℚ)
    (search : String → Except String (Option (List ApiPlace)))
    (center_lat center_lon : ℚ) (radius_km : ℤ)
    (queries : List String) : List PlaceData :=
  queries.foldl (fun acc query =>
    addNonDuplicates acc
      (search_nearby_places calcDist center_lat center_lon query radius_km
        (search query))) []

/-- Lines 185-204: one category's final list — accumulate then sort by
`distance_km` (Python `list.sort` is stable; modelled by `mergeSort`). -/
def processCategory (calcDist : ℚ → ℚ → ℚ → ℚ → ℚ)
    (search : String → Except String (Option (List ApiPlace)))
    (center_lat center_lon : ℚ) (radius_km : ℤ)
    (queries : List String) : List PlaceData :=
  (accumulateCategory calcDist search center_lat center_lon radius_km
    queries).mergeSort distLe

/-- The method `find_all_hotspots` (lines 165-211).  `categories or list(keys)` treats
both `None` and an empty list as "all taxonomy keys".  A category's query
terms come from `self.hotspot_categories[category]`; the lookup is modelled
as yielding no query terms for a key outside the taxonomy. -/
def find_all_hotspots (calcDist : ℚ → ℚ → ℚ → ℚ → ℚ)
    (search : String → Except String (Option (List ApiPlace)))
    (restaurant_location : LocationData) (radius_km : ℤ)
    (categories : Option (List String)) : List (String × List PlaceData) :=
  let center_lat := restaurant_location.latitude.getD 0
  let center_lon := restaurant_location.longitude.getD 0
  let categories_to_search :=
    match categories with
    | some (c :: cs) => c :: cs
    | _ => hotspot_categories.map Prod.fst
  categories_to_search.map (fun category =>
    (category,
      processCategory calcDist search center_lat center_lon radius_km
        ((hotspot_categories.lookup category).getD [])))

/-- Lines 30-35: auto-detection of the identifier type. -/
def detect_id_type (identifier : String) (id_type : String) : String :=
  if id_type == "auto" then
    if identifier.startsWith "0x" || identifier.contains ':' then "data_id"
    else "place_id"
  else id_type

/-- Lines 56-82: build `location_data` from the resolution response.  The
`place_info` branch is taken only for id type `data_id` with the key present
(line 56); otherwise the first entry of a present, non-empty `local_results`
is used (line 68); otherwise no location is found (lines 80-82). -/
def build_location_data (results : ResolveResults)
    (identifier id_type : String) : Option LocationData :=
  if id_type == "data_id" && results.place_info.isSome then
    match results.place_info with
    | some place_info =>
        some { name := place_info.title.getD "Unknown Restaurant"
               address := place_info.address.getD "Unknown Address"
               latitude := place_info.gps_latitude
               longitude := place_info.gps_longitude
               rating := place_info.rating
               reviews_count := place_info.reviews
               data_id := some identifier
               place_id := place_info.place_id }
    | none => none
  else
    match results.local_results with
    | some (place :: _) =>
        some { name := place.title.getD "Unknown Restaurant"
               address := place.address.getD "Unknown Address"
               latitude := place.gps_latitude
               longitude := place.gps_longitude
               rating := place.rating
               reviews_count := place.reviews
               data_id := place.data_id
               place_id := if id_type == "place_id" then some identifier
                           else place.place_id }
    | _ => none

/-- The method `get_restaurant_location` (lines 25-95): an exception yields `None`; an
unbuildable `location_data` yields `None`; a built record is returned only
when both coordinates are truthy (present and nonzero, lines 84-86). -/
def get_restaurant_location (apiResult : Except String ResolveResults)
    (identifier : String) (id_type : String) : Option LocationData :=
  match apiResult with
  | .error _ => none
  | .ok results =>
    match build_location_data results identifier
        (detect_id_type identifier id_type) with
    | none => none
    | some location_data =>
      if optTruthy location_data.latitude &&
          optTruthy location_data.longitude then
        some location_data
      else none

/-- The value returned by `find_hotspots_by_id` on success (lines 301-305);
console printing and JSON persistence are I/O side effects outside the model,
so only the data content is carried. -/
structure HotspotRunResult where
  restaurant_location : LocationData
  hotspots : List (String × List PlaceData)
  deriving DecidableEq, Repr

/-- The method `find_hotspots_by_id` (lines 281-305): resolve the anchor first; on
failure return `None` (lines 289-290) without touching the search
collaborator; otherwise aggregate. -/
def find_hotspots_by_id (calcDist : ℚ → ℚ → ℚ → ℚ → ℚ)
    (resolveResult : Except String ResolveResults)
    (search : String → Except String (Option (List ApiPlace)))
    (identifier id_type : String) (radius_km : ℤ)
    (categories : Option (List String)) : Option HotspotRunResult :=
  match get_restaurant_location resolveResult identifier id_type with
  | none => none
  | some restaurant_location =>
    some { restaurant_location := restaurant_location
           hotspots := find_all_hotspots calcDist search restaurant_location
             radius_km categories }

/-- The stream of surviving records a category's query terms contribute, in
processing order: the concatenation over the category's query terms (taxonomy
order) of the per-term `search_nearby_places` results. -/
def categoryStream (calcDist : ℚ → ℚ → ℚ → ℚ → ℚ)
    (search : String → Except String (Option (List ApiPlace)))
    (center_lat center_lon : ℚ) (radius_km : ℤ)
    (queries : List String) : List PlaceData :=
  (queries.map (fun query =>
    search_nearby_places calcDist center_lat center_lon query radius_km
      (search query))).flatten

/-- The specification's deduplication rule, stated independently of the
accumulation loop: keep each record's first occurrence (by the
case-insensitive name/address key) and drop every later duplicate. -/
def specDedup : List PlaceData → List PlaceData
  | [] => []
  | p :: ps =>
    p :: specDedup (ps.filter (fun q => !isDuplicateOf p q))
termination_by l => l.length
decreasing_by
  simp only [List.length_cons]
  exact Nat.lt_succ_of_le (List.length_filter_le _ _)

/-- The conversion `math.radians` as used by `calculate_distance`. -/
noncomputable def radians (x : ℝ) : ℝ := x * (Real.pi / 180)

/-- The method `calculate_distance` (lines 97-108): the Haversine great-circle distance
with Earth radius 6371 km, over the real numbers. -/
noncomputable def calculate_distance (lat1 lon1 lat2 lon2 : ℝ) : ℝ :=
  6371 * (2 * Real.arcsin (Real.sqrt
    (Real.sin ((radians lat2 - radians lat1) / 2) ^ 2 +
      Real.cos (radians lat1) * Real.cos (radians lat2) *
        Real.sin ((radians lon2 - radians lon1) / 2) ^ 2)))

end HotspotFinder

namespace HotspotFinder

/-! ## C7: auto-detection of the identifier type -/

/-- C7: with `id_type = "auto"`, an identifier is treated as a `data_id`
exactly when it contains `":"` or starts with `"0x"`, and as a `place_id`
otherwise. -/
theorem auto_detect_data_id_iff (identifier : String) :
    (detect_id_type identifier "auto" = "data_id" ↔
      (identifier.contains ':' = true ∨ identifier.startsWith "0x" = true)) ∧
    (detect_id_type identifier "auto" = "place_id" ↔
      ¬(identifier.contains ':' = true ∨ identifier.startsWith "0x" = true)) := by
  unfold detect_id_type
  by_cases h1 : identifier.startsWith "0x" <;>
    by_cases h2 : identifier.contains ':' <;>
      simp [h1, h2]

/-! ## C8: symmetry of the Haversine distance -/

/-- C8: `calculate_distance` is symmetric in its two coordinate pairs; the
equality is exact over the real-number model, hence in particular within any
relative tolerance. -/
theorem calculate_distance_symm (lat1 lon1 lat2 lon2 : ℝ) :
    calculate_distance lat1 lon1 lat2 lon2 =
      calculate_distance lat2 lon2 lat1 lon1 := by
  unfold calculate_distance
  have h : ∀ x y : ℝ,
      Real.sin ((x - y) / 2) ^ 2 = Real.sin ((y - x) / 2) ^ 2 := by
    intro x y
    rw [show (x - y) / 2 = -((y - x) / 2) by ring, Real.sin_neg, neg_sq]
  rw [h (radians lat2) (radians lat1), h (radians lon2) (radians lon1),
    mul_comm (Real.cos (radians lat1))]

/-! ## C6: a resolution failure aborts the whole operation -/

/-- C6: when the anchor cannot be resolved, `find_hotspots_by_id` returns
`none`, and it does so for every possible search collaborator — no
nearby-place search can influence (or be required for) the outcome. -/
theorem resolution_failure_yields_none
    (calcDist : ℚ → ℚ → ℚ → ℚ → ℚ)
    (resolveResult : Except String ResolveResults)
    (identifier id_type : String) (radius_km : ℤ)
    (categories : Option (List String))
    (h : get_restaurant_location resolveResult identifier id_type = none) :
    ∀ search, find_hotspots_by_id calcDist resolveResult search identifier
      id_type radius_km categories = none := by
  intro search
  unfold find_hotspots_by_id
  rw [h]

/-- Witness for C6 at a concrete failing resolution (the external call
raised). -/
theorem resolution_failure_yields_none_witness :
    find_hotspots_by_id (fun _ _ _ _ => 0) (.error "connection error")
      (fun _ => .ok none) "ChIJxyz" "auto" 10 none = none :=
  resolution_failure_yields_none (fun _ _ _ _ => 0) (.error "connection error")
    "ChIJxyz" "auto" 10 none rfl (fun _ => .ok none)

end HotspotFinder

namespace HotspotFinder

theorem optTruthy_getD_ne_zero {x : Option ℚ} (h : optTruthy x = true) :
    x.getD 0 ≠ 0 := by
  cases x with
  | none => simp [optTruthy] at h
  | some v => simpa [optTruthy, bne_iff_ne] using h

theorem of_mem_processHits {calcDist : ℚ → ℚ → ℚ → ℚ → ℚ}
    {center_lat center_lon : ℚ} {query : String} {radius_km : ℤ}
    {l : List ApiPlace} {p : PlaceData}
    (hp : p ∈ processHits calcDist center_lat center_lon query radius_km l) :
    calcDist center_lat center_lon p.latitude p.longitude ≤ (radius_km : ℚ) ∧
      p.distance_km =
        round2 (calcDist center_lat center_lon p.latitude p.longitude) ∧
      p.latitude ≠ 0 ∧ p.longitude ≠ 0 ∧ p.category = query := by
  induction l with
  | nil => simp [processHits] at hp
  | cons place rest ih =>
    rw [processHits] at hp
    by_cases h1 :
        (optTruthy place.gps_latitude && optTruthy place.gps_longitude) = true
    · rw [if_pos h1] at hp
      by_cases h2 : calcDist center_lat center_lon
          (place.gps_latitude.getD 0) (place.gps_longitude.getD 0) ≤
            (radius_km : ℚ)
      · rw [if_pos h2] at hp
        rcases List.mem_cons.mp hp with hEq | hMem
        · subst hEq
          have hlat := optTruthy_getD_ne_zero (Bool.and_elim_left h1)
          have hlon := optTruthy_getD_ne_zero (Bool.and_elim_right h1)
          exact ⟨h2, rfl, hlat, hlon, rfl⟩
        · exact ih hMem
      · rw [if_neg h2] at hp
        exact ih hp
    · rw [if_neg h1] at hp
      exact ih hp

theorem mem_addNonDuplicates {acc l : List PlaceData} {p : PlaceData}
    (hp : p ∈ addNonDuplicates acc l) : p ∈ acc ∨ p ∈ l := by
  induction l generalizing acc with
  | nil => exact Or.inl hp
  | cons q rest ih =>
    rw [addNonDuplicates] at hp
    by_cases h : acc.any (fun existing => isDuplicateOf existing q) = true
    · rw [if_pos h] at hp
      rcases ih hp with h1 | h1
      · exact Or.inl h1
      · exact Or.inr (List.mem_cons_of_mem _ h1)
    · rw [if_neg h] at hp
      rcases ih hp with h1 | h1
      · rcases List.mem_append.mp h1 with h2 | h2
        · exact Or.inl h2
        · rw [List.mem_singleton] at h2
          subst h2
          exact Or.inr (List.mem_cons_self _ _)
      · exact Or.inr (List.mem_cons_of_mem _ h1)

theorem addNonDuplicates_append (acc l1 l2 : List PlaceData) :
    addNonDuplicates acc (l1 ++ l2) =
      addNonDuplicates (addNonDuplicates acc l1) l2 := by
  induction l1 generalizing acc with
  | nil => rfl
  | cons q rest ih =>
    rw [List.cons_append, addNonDuplicates, addNonDuplicates]
    by_cases h : acc.any (fun existing => isDuplicateOf existing q) = true
    · simp only [if_pos h]
      exact ih _
    · simp only [if_neg h]
      exact ih _

theorem accumulateCategory_eq_addNonDuplicates
    (calcDist : ℚ → ℚ → ℚ → ℚ → ℚ)
    (search : String → Except String (Option (List ApiPlace)))
    (center_lat center_lon : ℚ) (radius_km : ℤ) (queries : List String) :
    accumulateCategory calcDist search center_lat center_lon radius_km
        queries =
      addNonDuplicates []
        (categoryStream calcDist search center_lat center_lon radius_km
          queries) := by
  unfold accumulateCategory categoryStream
  generalize ([] : List PlaceData) = acc
  induction queries generalizing acc with
  | nil => rfl
  | cons q rest ih =>
    rw [List.foldl_cons, List.map_cons, List.flatten_cons,
      addNonDuplicates_append, ih]

end HotspotFinder

namespace HotspotFinder

theorem isDuplicateOf_comm (a b : PlaceData) :
    isDuplicateOf a b = isDuplicateOf b a := by
  rw [Bool.eq_iff_iff]
  simp only [isDuplicateOf, Bool.and_eq_true, beq_iff_eq]
  constructor <;> exact fun ⟨h1, h2⟩ => ⟨h1.symm, h2.symm⟩

theorem specDedup_sublist (l : List PlaceData) : (specDedup l).Sublist l := by
  induction l using specDedup.induct with
  | case1 => simp [specDedup]
  | case2 p ps ih =>
    rw [specDedup]
    exact (ih.trans (List.filter_sublist ps)).cons₂ p

theorem specDedup_pairwise (l : List PlaceData) :
    (specDedup l).Pairwise (fun a b => isDuplicateOf a b = false) := by
  induction l using specDedup.induct with
  | case1 => simp [specDedup]
  | case2 p ps ih =>
    rw [specDedup]
    refine List.Pairwise.cons ?_ ih
    intro q hq
    have hq' : q ∈ ps.filter (fun r => !isDuplicateOf p r) :=
      (specDedup_sublist _).mem hq
    have := (List.mem_filter.mp hq').2
    simpa using this

theorem addNonDuplicates_eq_specDedup (l : List PlaceData) : ∀ acc,
    addNonDuplicates acc l =
      acc ++ specDedup (l.filter
        (fun p => !acc.any (fun existing => isDuplicateOf existing p))) := by
  induction l with
  | nil => intro acc; simp [addNonDuplicates, specDedup]
  | cons q rest ih =>
    intro acc
    rw [addNonDuplicates]
    by_cases h : acc.any (fun existing => isDuplicateOf existing q) = true
    · rw [if_pos h, ih]
      congr 2
      rw [List.filter_cons]
      simp [h]
    · rw [if_neg h, ih]
      have hx : (acc.any fun existing => isDuplicateOf existing q) = false := by
        revert h
        cases acc.any fun existing => isDuplicateOf existing q <;> simp
      have hfq : (!acc.any fun existing => isDuplicateOf existing q) = true := by
        rw [hx]
        rfl
      rw [List.filter_cons]
      simp only [hfq, if_true]
      rw [specDedup, List.append_assoc, List.singleton_append]
      congr 2
      rw [List.filter_filter]
      congr 1
      apply List.filter_congr
      intro x _
      simp only [List.any_append, List.any_cons, List.any_nil,
        Bool.or_false, Bool.not_or]
      rw [Bool.and_comm]

end HotspotFinder

namespace HotspotFinder

theorem distLe_trans (a b c : PlaceData) (hab : distLe a b = true)
    (hbc : distLe b c = true) : distLe a c = true := by
  simp only [distLe, decide_eq_true_eq] at hab hbc ⊢
  exact le_trans hab hbc

theorem distLe_total (a b : PlaceData) : (distLe a b || distLe b a) = true := by
  simp only [distLe, Bool.or_eq_true, decide_eq_true_eq]
  exact le_total _ _

theorem of_mem_find_all_hotspots {calcDist : ℚ → ℚ → ℚ → ℚ → ℚ}
    {search : String → Except String (Option (List ApiPlace))}
    {loc : LocationData} {radius_km : ℤ} {categories : Option (List String)}
    {cat : String} {l : List PlaceData}
    (h : (cat, l) ∈ find_all_hotspots calcDist search loc radius_km categories) :
    l = processCategory calcDist search (loc.latitude.getD 0)
      (loc.longitude.getD 0) radius_km
      ((hotspot_categories.lookup cat).getD []) := by
  unfold find_all_hotspots at h
  simp only [List.mem_map, Prod.mk.injEq] at h
  obtain ⟨a, _, ha, hl⟩ := h
  subst ha
  exact hl.symm

theorem of_mem_categoryStream {calcDist : ℚ → ℚ → ℚ → ℚ → ℚ}
    {search : String → Except String (Option (List ApiPlace))}
    {center_lat center_lon : ℚ} {radius_km : ℤ} {queries : List String}
    {p : PlaceData}
    (hp : p ∈ categoryStream calcDist search center_lat center_lon radius_km
      queries) :
    calcDist center_lat center_lon p.latitude p.longitude ≤ (radius_km : ℚ) ∧
      p.distance_km =
        round2 (calcDist center_lat center_lon p.latitude p.longitude) ∧
      p.latitude ≠ 0 ∧ p.longitude ≠ 0 ∧ p.category ∈ queries := by
  unfold categoryStream at hp
  rw [List.mem_flatten] at hp
  obtain ⟨contrib, hc, hpc⟩ := hp
  rw [List.mem_map] at hc
  obtain ⟨q, hq, rfl⟩ := hc
  unfold search_nearby_places at hpc
  match hsr : search q with
  | .error msg => rw [hsr] at hpc; cases hpc
  | .ok none => rw [hsr] at hpc; cases hpc
  | .ok (some hits) =>
    rw [hsr] at hpc
    obtain ⟨h1, h2, h3, h4, h5⟩ := of_mem_processHits hpc
    exact ⟨h1, h2, h3, h4, h5 ▸ hq⟩

theorem of_mem_accumulateCategory {calcDist : ℚ → ℚ → ℚ → ℚ → ℚ}
    {search : String → Except String (Option (List ApiPlace))}
    {center_lat center_lon : ℚ} {radius_km : ℤ} {queries : List String}
    {p : PlaceData}
    (hp : p ∈ accumulateCategory calcDist search center_lat center_lon
      radius_km queries) :
    p ∈ categoryStream calcDist search center_lat center_lon radius_km
      queries := by
  rw [accumulateCategory_eq_addNonDuplicates] at hp
  rcases mem_addNonDuplicates hp with h | h
  · cases h
  · exact h

theorem round2_le_intCast {d : ℚ} {n : ℤ} (h : d ≤ (n : ℚ)) :
    round2 d ≤ (n : ℚ) := by
  unfold round2
  rw [div_le_iff₀ (by norm_num : (0:ℚ) < 100)]
  have h1 : round (d * 100) ≤ n * 100 := by
    rw [round_eq]
    have h2 : d * 100 + 1 / 2 ≤ ((n * 100 : ℤ) : ℚ) + 1 / 2 := by
      push_cast
      nlinarith
    calc ⌊d * 100 + 1 / 2⌋ ≤ ⌊((n * 100 : ℤ) : ℚ) + 1 / 2⌋ :=
          Int.floor_le_floor h2
      _ = n * 100 := by
          rw [add_comm, Int.floor_add_int]
          norm_num
  calc ((round (d * 100) : ℤ) : ℚ) ≤ ((n * 100 : ℤ) : ℚ) := by
        exact_mod_cast h1
    _ = (n : ℚ) * 100 := by push_cast; ring

end HotspotFinder

namespace HotspotFinder

/-! ## C1: radius filtering -/

/-- C1: no hit whose computed distance exceeds the radius survives
`search_nearby_places`, so none reaches any category list of
`find_all_hotspots`; and every surviving record's stored (rounded)
`distance_km` is also at most the radius. -/
theorem radius_filtering (calcDist : ℚ → ℚ → ℚ → ℚ → ℚ)
    (search : String → Except String (Option (List ApiPlace)))
    (loc : LocationData) (radius_km : ℤ)
    (categories : Option (List String)) :
    (∀ (cl cn : ℚ) (q : String)
        (apiResult : Except String (Option (List ApiPlace))) (p : PlaceData),
      p ∈ search_nearby_places calcDist cl cn q radius_km apiResult →
        calcDist cl cn p.latitude p.longitude ≤ (radius_km : ℚ) ∧
          p.distance_km ≤ (radius_km : ℚ)) ∧
    (∀ (cat : String) (l : List PlaceData) (p : PlaceData),
      (cat, l) ∈ find_all_hotspots calcDist search loc radius_km categories →
      p ∈ l →
        calcDist (loc.latitude.getD 0) (loc.longitude.getD 0)
            p.latitude p.longitude ≤ (radius_km : ℚ) ∧
          p.distance_km ≤ (radius_km : ℚ)) := by
  constructor
  · intro cl cn q apiResult p hp
    unfold search_nearby_places at hp
    match apiResult with
    | .error msg => simp at hp
    | .ok none => simp at hp
    | .ok (some hits) =>
      obtain ⟨h1, h2, -, -, -⟩ :=
        @of_mem_processHits calcDist cl cn q radius_km hits p
          (by simpa using hp)
      exact ⟨h1, h2 ▸ round2_le_intCast h1⟩
  · intro cat l p hl hp
    have hl' := of_mem_find_all_hotspots hl
    subst hl'
    unfold processCategory at hp
    rw [List.mem_mergeSort] at hp
    obtain ⟨h1, h2, -, -, -⟩ := of_mem_categoryStream
      (of_mem_accumulateCategory hp)
    exact ⟨h1, h2 ▸ round2_le_intCast h1⟩

/-! ## C2: deduplication, first occurrence wins -/

/-- C2: no category list of `find_all_hotspots` holds two records whose
lowercased name and address both agree, and each category list is exactly the
sort of the first-occurrence-wins deduplication of the stream of surviving
records contributed by the category's query terms in processing order. -/
theorem dedup_first_occurrence_wins (calcDist : ℚ → ℚ → ℚ → ℚ → ℚ)
    (search : String → Except String (Option (List ApiPlace)))
    (loc : LocationData) (radius_km : ℤ) (categories : Option (List String))
    (cat : String) (l : List PlaceData)
    (hl : (cat, l) ∈ find_all_hotspots calcDist search loc radius_km
      categories) :
    l.Pairwise (fun a b => isDuplicateOf a b = false) ∧
      l = (specDedup (categoryStream calcDist search (loc.latitude.getD 0)
        (loc.longitude.getD 0) radius_km
        ((hotspot_categories.lookup cat).getD []))).mergeSort distLe := by
  have hl' := of_mem_find_all_hotspots hl
  subst hl'
  have hacc : accumulateCategory calcDist search (loc.latitude.getD 0)
      (loc.longitude.getD 0) radius_km
      ((hotspot_categories.lookup cat).getD []) =
      specDedup (categoryStream calcDist search (loc.latitude.getD 0)
        (loc.longitude.getD 0) radius_km
        ((hotspot_categories.lookup cat).getD [])) := by
    rw [accumulateCategory_eq_addNonDuplicates, addNonDuplicates_eq_specDedup]
    simp
  constructor
  · have hpw : (accumulateCategory calcDist search (loc.latitude.getD 0)
        (loc.longitude.getD 0) radius_km
        ((hotspot_categories.lookup cat).getD [])).Pairwise
        (fun a b => isDuplicateOf a b = false) := by
      rw [hacc]
      exact specDedup_pairwise _
    refine hpw.perm (List.mergeSort_perm _ _).symm ?_
    intro x y h
    rw [isDuplicateOf_comm]
    exact h
  · unfold processCategory
    rw [hacc]

/-! ## C3: sorted ascending by distance, stable on ties -/

/-- C3: every category list of `find_all_hotspots` is sorted ascending by
`distance_km`, and for every tie value the records carrying it appear in
exactly their accumulation (first-seen) order. -/
theorem category_sorted_stable (calcDist : ℚ → ℚ → ℚ → ℚ → ℚ)
    (search : String → Except String (Option (List ApiPlace)))
    (loc : LocationData) (radius_km : ℤ) (categories : Option (List String))
    (cat : String) (l : List PlaceData)
    (hl : (cat, l) ∈ find_all_hotspots calcDist search loc radius_km
      categories) :
    l.Pairwise (fun a b => a.distance_km ≤ b.distance_km) ∧
      ∀ d : ℚ, l.filter (fun p => p.distance_km == d) =
        (accumulateCategory calcDist search (loc.latitude.getD 0)
          (loc.longitude.getD 0) radius_km
          ((hotspot_categories.lookup cat).getD [])).filter
          (fun p => p.distance_km == d) := by
  have hl' := of_mem_find_all_hotspots hl
  subst hl'
  unfold processCategory
  constructor
  · have hs := List.sorted_mergeSort distLe_trans distLe_total
      (accumulateCategory calcDist search (loc.latitude.getD 0)
        (loc.longitude.getD 0) radius_km
        ((hotspot_categories.lookup cat).getD []))
    refine hs.imp ?_
    intro a b h
    simpa [distLe] using h
  · intro d
    have hpw : ((accumulateCategory calcDist search (loc.latitude.getD 0)
        (loc.longitude.getD 0) radius_km
        ((hotspot_categories.lookup cat).getD [])).filter
          (fun p => p.distance_km == d)).Pairwise
        (fun a b => distLe a b = true) := by
      apply List.pairwise_of_forall_mem_list
      intro a ha b hb
      have hda := (List.mem_filter.mp ha).2
      have hdb := (List.mem_filter.mp hb).2
      rw [beq_iff_eq] at hda hdb
      simp [distLe, hda, hdb]
    have hsub : ((accumulateCategory calcDist search (loc.latitude.getD 0)
        (loc.longitude.getD 0) radius_km
        ((hotspot_categories.lookup cat).getD [])).filter
          (fun p => p.distance_km == d)).Sublist
        ((accumulateCategory calcDist search (loc.latitude.getD 0)
          (loc.longitude.getD 0) radius_km
          ((hotspot_categories.lookup cat).getD [])).mergeSort distLe) :=
      List.sublist_mergeSort distLe_trans distLe_total hpw
        (List.filter_sublist _)
    have hidem : (((accumulateCategory calcDist search (loc.latitude.getD 0)
        (loc.longitude.getD 0) radius_km
        ((hotspot_categories.lookup cat).getD [])).filter
          (fun p => p.distance_km == d)).filter
            (fun p => p.distance_km == d)) =
        ((accumulateCategory calcDist search (loc.latitude.getD 0)
          (loc.longitude.getD 0) radius_km
          ((hotspot_categories.lookup cat).getD [])).filter
            (fun p => p.distance_km == d)) := by
      apply List.filter_eq_self.mpr
      intro a ha
      exact (List.mem_filter.mp ha).2
    have hsub2 := hsub.filter (fun p => p.distance_km == d)
    rw [hidem] at hsub2
    have hperm := (List.mergeSort_perm (accumulateCategory calcDist search
      (loc.latitude.getD 0) (loc.longitude.getD 0) radius_km
      ((hotspot_categories.lookup cat).getD [])) distLe).filter
        (fun p => p.distance_km == d)
    exact (hsub2.eq_of_length hperm.length_eq.symm).symm

end HotspotFinder

namespace HotspotFinder

/-- Demonstration distance function: constant 5 km. -/
def demoCalc : ℚ → ℚ → ℚ → ℚ → ℚ := fun _ _ _ _ => 5

/-- A demonstration raw hit with valid coordinates. -/
def demoHit : ApiPlace :=
  { title := some "Alpha Diner", address := some "1 Main St",
    gps_latitude := some 2, gps_longitude := some 3 }

/-- Demonstration search collaborator: one hit for "restaurant", no hits for
every other query term. -/
def demoSearch : String → Except String (Option (List ApiPlace)) :=
  fun q => if q == "restaurant" then .ok (some [demoHit]) else .ok (some [])

/-- A demonstration anchor location. -/
def demoLoc : LocationData :=
  { name := "Anchor", address := "Somewhere", latitude := some 12,
    longitude := some 77, rating := none, reviews_count := none,
    data_id := none, place_id := none }

/-- The record `demoHit` normalizes to under `demoCalc`. -/
def demoRec : PlaceData :=
  { name := "Alpha Diner", address := "1 Main St", rating := none,
    reviews_count := none, price_level := none, type := "Unknown",
    latitude := 2, longitude := 3, distance_km := 5, data_id := none,
    place_id := none, phone := none, website := none, hours := none,
    category := "restaurant" }

theorem demo_round2_five : round2 5 = 5 := by
  unfold round2
  rw [round_eq]
  norm_num

theorem demo_search_restaurant :
    search_nearby_places demoCalc 12 77 "restaurant" 10
      (demoSearch "restaurant") = [demoRec] := by
  unfold demoSearch
  rw [if_pos (by rfl)]
  unfold search_nearby_places
  norm_num [demoHit, optTruthy, demoCalc, processHits]
  rw [demo_round2_five]
  rfl

theorem demo_search_other (q : String) (hq : q ≠ "restaurant") :
    search_nearby_places demoCalc 12 77 q 10 (demoSearch q) = [] := by
  unfold demoSearch
  rw [if_neg (by simpa using hq)]
  rfl

theorem demo_accumulate :
    accumulateCategory demoCalc demoSearch 12 77 10
      ["restaurant", "cafe", "food court", "bar", "pub"] = [demoRec] := by
  unfold accumulateCategory
  rw [List.foldl_cons, List.foldl_cons, List.foldl_cons, List.foldl_cons,
    List.foldl_cons, List.foldl_nil]
  rw [demo_search_restaurant,
    demo_search_other "cafe" (by decide),
    demo_search_other "food court" (by decide),
    demo_search_other "bar" (by decide),
    demo_search_other "pub" (by decide)]
  rfl

theorem demo_eval :
    find_all_hotspots demoCalc demoSearch demoLoc 10
      (some ["restaurants"]) = [("restaurants", [demoRec])] := by
  unfold find_all_hotspots
  simp only [demoLoc, Option.getD_some, List.map_cons, List.map_nil]
  unfold processCategory
  rw [show (hotspot_categories.lookup "restaurants").getD [] =
      ["restaurant", "cafe", "food court", "bar", "pub"] from rfl]
  rw [demo_accumulate]
  rw [List.mergeSort_of_sorted (by simp)]

end HotspotFinder

namespace HotspotFinder

/-- Witness for C1 at the concrete demonstration run. -/
theorem radius_filtering_witness :
    demoCalc (demoLoc.latitude.getD 0) (demoLoc.longitude.getD 0)
        demoRec.latitude demoRec.longitude ≤ ((10 : ℤ) : ℚ) ∧
      demoRec.distance_km ≤ ((10 : ℤ) : ℚ) :=
  (radius_filtering demoCalc demoSearch demoLoc 10 (some ["restaurants"])).2
    "restaurants" [demoRec] demoRec
    (by rw [demo_eval]; exact List.mem_singleton_self _)
    (List.mem_singleton_self _)

/-- Witness for C2 at the concrete demonstration run. -/
theorem dedup_first_occurrence_wins_witness :
    [demoRec].Pairwise (fun a b => isDuplicateOf a b = false) ∧
      [demoRec] = (specDedup (categoryStream demoCalc demoSearch
        (demoLoc.latitude.getD 0) (demoLoc.longitude.getD 0) 10
        ((hotspot_categories.lookup "restaurants").getD []))).mergeSort
          distLe :=
  dedup_first_occurrence_wins demoCalc demoSearch demoLoc 10
    (some ["restaurants"]) "restaurants" [demoRec]
    (by rw [demo_eval]; exact List.mem_singleton_self _)

/-- Witness for C3 at the concrete demonstration run, tie value 5. -/
theorem category_sorted_stable_witness :
    [demoRec].Pairwise (fun a b => a.distance_km ≤ b.distance_km) ∧
      [demoRec].filter (fun p => p.distance_km == 5) =
        (accumulateCategory demoCalc demoSearch (demoLoc.latitude.getD 0)
          (demoLoc.longitude.getD 0) 10
          ((hotspot_categories.lookup "restaurants").getD [])).filter
          (fun p => p.distance_km == 5) :=
  ⟨(category_sorted_stable demoCalc demoSearch demoLoc 10
      (some ["restaurants"]) "restaurants" [demoRec]
      (by rw [demo_eval]; exact List.mem_singleton_self _)).1,
    (category_sorted_stable demoCalc demoSearch demoLoc 10
      (some ["restaurants"]) "restaurants" [demoRec]
      (by rw [demo_eval]; exact List.mem_singleton_self _)).2 5⟩

/-! ## C4: omitted categories means the full taxonomy -/

/-- C4: with the categories argument omitted, the result's key sequence is
exactly the taxonomy's key sequence, and every taxonomy key is present (bound
to some list, possibly empty) in the result. -/
theorem default_categories_complete (calcDist : ℚ → ℚ → ℚ → ℚ → ℚ)
    (search : String → Except String (Option (List ApiPlace)))
    (loc : LocationData) (radius_km : ℤ) :
    ((find_all_hotspots calcDist search loc radius_km none).map Prod.fst =
      hotspot_categories.map Prod.fst) ∧
    ∀ cat ∈ hotspot_categories.map Prod.fst,
      ∃ l, (cat, l) ∈ find_all_hotspots calcDist search loc radius_km none := by
  constructor
  · unfold find_all_hotspots
    rw [List.map_map]
    simp [Function.comp]
  · intro cat hcat
    refine ⟨processCategory calcDist search (loc.latitude.getD 0)
      (loc.longitude.getD 0) radius_km
      ((hotspot_categories.lookup cat).getD []), ?_⟩
    unfold find_all_hotspots
    rw [List.mem_map]
    exact ⟨cat, hcat, rfl⟩

/-- Witness for C4 at the concrete demonstration run. -/
theorem default_categories_complete_witness :
    (find_all_hotspots demoCalc demoSearch demoLoc 10 none).map Prod.fst =
      hotspot_categories.map Prod.fst :=
  (default_categories_complete demoCalc demoSearch demoLoc 10).1

/-! ## C5: a per-term failure is isolated -/

/-- C5: replacing one query term's successful empty response by a raised
error changes nothing: the failing term contributes an empty list, every
other term's records still reach the final category lists, and the whole
run still produces a (total) result. -/
theorem per_term_failure_isolated (calcDist : ℚ → ℚ → ℚ → ℚ → ℚ)
    (search failingSearch : String → Except String (Option (List ApiPlace)))
    (t msg : String) (loc : LocationData) (radius_km : ℤ)
    (categories : Option (List String))
    (hfail : failingSearch t = .error msg)
    (hok : search t = .ok (some []))
    (hagree : ∀ q, q ≠ t → failingSearch q = search q) :
    find_all_hotspots calcDist failingSearch loc radius_km categories =
      find_all_hotspots calcDist search loc radius_km categories := by
  have hc : ∀ (cl cn : ℚ) (q : String) (r : ℤ),
      search_nearby_places calcDist cl cn q r (failingSearch q) =
        search_nearby_places calcDist cl cn q r (search q) := by
    intro cl cn q r
    by_cases hq : q = t
    · subst hq
      rw [hfail, hok]
      rfl
    · rw [hagree q hq]
  have hproc : ∀ (cl cn : ℚ) (r : ℤ) (qs : List String),
      processCategory calcDist failingSearch cl cn r qs =
        processCategory calcDist search cl cn r qs := by
    intro cl cn r qs
    unfold processCategory accumulateCategory
    have harg : (fun (acc : List PlaceData) query => addNonDuplicates acc
        (search_nearby_places calcDist cl cn query r (failingSearch query))) =
        (fun (acc : List PlaceData) query => addNonDuplicates acc
          (search_nearby_places calcDist cl cn query r (search query))) := by
      funext acc query
      rw [hc]
    rw [harg]
  unfold find_all_hotspots
  simp only [hproc]

/-- Demonstration search collaborator that raises on the query term
"cafe" and otherwise behaves like `demoSearch`. -/
def demoFailSearch : String → Except String (Option (List ApiPlace)) :=
  fun q => if q == "cafe" then .error "network error" else demoSearch q

/-- Witness for C5: with "cafe" failing, the run still returns the record
contributed by the "restaurant" query term. -/
theorem per_term_failure_isolated_witness :
    (find_all_hotspots demoCalc demoFailSearch demoLoc 10
        (some ["restaurants"]) =
      find_all_hotspots demoCalc demoSearch demoLoc 10
        (some ["restaurants"])) ∧
    ("restaurants", [demoRec]) ∈ find_all_hotspots demoCalc demoFailSearch
      demoLoc 10 (some ["restaurants"]) := by
  have h := per_term_failure_isolated demoCalc demoSearch demoFailSearch
    "cafe" "network error" demoLoc 10 (some ["restaurants"]) rfl rfl
    (fun q hq => by
      have hb : (q == "cafe") = false := beq_eq_false_iff_ne.mpr hq
      unfold demoFailSearch
      rw [if_neg (by simp [hb])])
  refine ⟨h, ?_⟩
  rw [h, demo_eval]
  exact List.mem_singleton_self _

end HotspotFinder

namespace HotspotFinder

/-! ## C9: a coordinate of exactly 0 counts as absent -/

/-- C9: presence of a coordinate is tested by Python truthiness, so a raw hit
whose latitude or longitude is exactly 0 is discarded like a hit with missing
coordinates, and an anchor whose resolved latitude or longitude is exactly 0
is rejected, which makes the whole run return no result. -/
theorem zero_coordinate_truthiness :
    (∀ (calcDist : ℚ → ℚ → ℚ → ℚ → ℚ) (cl cn : ℚ) (q : String) (r : ℤ)
        (place : ApiPlace) (rest : List ApiPlace),
      place.gps_latitude = some 0 ∨ place.gps_longitude = some 0 →
        processHits calcDist cl cn q r (place :: rest) =
          processHits calcDist cl cn q r rest) ∧
    (∀ (results : ResolveResults) (identifier id_type : String)
        (ld : LocationData),
      build_location_data results identifier
          (detect_id_type identifier id_type) = some ld →
      ld.latitude = some 0 ∨ ld.longitude = some 0 →
      get_restaurant_location (.ok results) identifier id_type = none ∧
      ∀ (calcDist : ℚ → ℚ → ℚ → ℚ → ℚ)
          (search : String → Except String (Option (List ApiPlace)))
          (radius_km : ℤ) (categories : Option (List String)),
        find_hotspots_by_id calcDist (.ok results) search identifier id_type
          radius_km categories = none) := by
  constructor
  · intro calcDist cl cn q r place rest h
    rw [processHits]
    have hcond : (optTruthy place.gps_latitude &&
        optTruthy place.gps_longitude) = false := by
      rcases h with h | h <;> rw [h] <;> simp [optTruthy]
    simp [hcond]
  · intro results identifier id_type ld hbuild h0
    have hcond : (optTruthy ld.latitude && optTruthy ld.longitude) = false := by
      rcases h0 with h | h <;> rw [h] <;> simp [optTruthy]
    have hg : get_restaurant_location (.ok results) identifier id_type =
        none := by
      show (match build_location_data results identifier
          (detect_id_type identifier id_type) with
        | none => none
        | some location_data =>
          if (optTruthy location_data.latitude &&
              optTruthy location_data.longitude) = true then
            some location_data
          else none) = none
      rw [hbuild]
      simp [hcond]
    refine ⟨hg, ?_⟩
    intro calcDist search radius_km categories
    unfold find_hotspots_by_id
    rw [hg]

/-- A raw hit sitting exactly on the equator (latitude 0). -/
def zeroHit : ApiPlace :=
  { title := some "Equator Cafe", address := some "0 Lat Rd",
    gps_latitude := some 0, gps_longitude := some 7 }

/-- A resolution response whose only local result has latitude 0. -/
def zeroResults : ResolveResults :=
  { place_info := none, local_results := some [zeroHit] }

/-- The location record `zeroResults` builds for a `place_id` lookup. -/
def zeroLd : LocationData :=
  { name := "Equator Cafe", address := "0 Lat Rd", latitude := some 0,
    longitude := some 7, rating := none, reviews_count := none,
    data_id := none, place_id := some "PID123" }

/-- Witness for C9: the equator hit is dropped from the search results, and
the equator anchor makes resolution and the whole run fail. -/
theorem zero_coordinate_truthiness_witness :
    (processHits demoCalc 12 77 "cafe" 10 [zeroHit, demoHit] =
      processHits demoCalc 12 77 "cafe" 10 [demoHit]) ∧
    (get_restaurant_location (.ok zeroResults) "PID123" "place_id" = none ∧
      find_hotspots_by_id demoCalc (.ok zeroResults) demoSearch "PID123"
        "place_id" 10 none = none) := by
  constructor
  · exact zero_coordinate_truthiness.1 demoCalc 12 77 "cafe" 10 zeroHit
      [demoHit] (Or.inl rfl)
  · have h := zero_coordinate_truthiness.2 zeroResults "PID123" "place_id"
      zeroLd rfl (Or.inl rfl)
    exact ⟨h.1, h.2 demoCalc demoSearch 10 none⟩

end HotspotFinder

namespace HotspotFinder

/-! ## C10: rounding of the stored distance -/

/-- Demonstration distance function whose value is the hit's latitude, so
each hit's true distance can be chosen freely. -/
def tieCalc : ℚ → ℚ → ℚ → ℚ → ℚ := fun _ _ lat _ => lat

/-- True distance 1.231 km. -/
def tieHitA : ApiPlace :=
  { title := some "Near Park", address := some "5 Oak Ave",
    gps_latitude := some (1231/1000), gps_longitude := some 4 }

/-- True distance 1.229 km, strictly closer than `tieHitA`. -/
def tieHitB : ApiPlace :=
  { title := some "Corner Bakery", address := some "6 Oak Ave",
    gps_latitude := some (1229/1000), gps_longitude := some 4 }

/-- True distance 10.004 km: beyond a 10 km radius, though its rounded
distance 10.00 is not. -/
def farHit : ApiPlace :=
  { title := some "Out Of Range", address := some "9 Far Rd",
    gps_latitude := some (10004/1000), gps_longitude := some 4 }

/-- Demonstration search: three hits for "park", nothing elsewhere. -/
def tieSearch : String → Except String (Option (List ApiPlace)) :=
  fun q => if q == "park" then .ok (some [tieHitA, tieHitB, farHit])
           else .ok (some [])

/-- The record for `tieHitA`: rounded distance 1.23. -/
def tieRecA : PlaceData :=
  { name := "Near Park", address := "5 Oak Ave", rating := none,
    reviews_count := none, price_level := none, type := "Unknown",
    latitude := 1231/1000, longitude := 4, distance_km := mkRat 123 100,
    data_id := none, place_id := none, phone := none, website := none,
    hours := none, category := "park" }

/-- The record for `tieHitB`: the same rounded distance 1.23. -/
def tieRecB : PlaceData :=
  { name := "Corner Bakery", address := "6 Oak Ave", rating := none,
    reviews_count := none, price_level := none, type := "Unknown",
    latitude := 1229/1000, longitude := 4, distance_km := mkRat 123 100,
    data_id := none, place_id := none, phone := none, website := none,
    hours := none, category := "park" }

theorem tie_round2_a : round2 ((1231 : ℚ)/1000) = mkRat 123 100 := by
  unfold round2
  rw [round_eq, Rat.mkRat_eq_div]
  norm_num

theorem tie_round2_b : round2 ((1229 : ℚ)/1000) = mkRat 123 100 := by
  unfold round2
  rw [round_eq, Rat.mkRat_eq_div]
  norm_num

theorem tie_search_park :
    search_nearby_places tieCalc 12 77 "park" 10 (tieSearch "park") =
      [tieRecA, tieRecB] := by
  unfold tieSearch
  rw [if_pos (by rfl)]
  unfold search_nearby_places
  norm_num [tieHitA, tieHitB, farHit, optTruthy, tieCalc, processHits]
  rw [tie_round2_a, tie_round2_b]
  exact ⟨rfl, rfl⟩

theorem tie_search_other (q : String) (hq : q ≠ "park") :
    search_nearby_places tieCalc 12 77 q 10 (tieSearch q) = [] := by
  unfold tieSearch
  rw [if_neg (by simpa using hq)]
  rfl

theorem tie_dup_ab : isDuplicateOf tieRecA tieRecB = false := by decide

theorem tie_accumulate :
    accumulateCategory tieCalc tieSearch 12 77 10
      ["park", "garden", "zoo", "lake", "beach"] = [tieRecA, tieRecB] := by
  unfold accumulateCategory
  rw [List.foldl_cons, List.foldl_cons, List.foldl_cons, List.foldl_cons,
    List.foldl_cons, List.foldl_nil]
  rw [tie_search_park,
    tie_search_other "garden" (by decide),
    tie_search_other "zoo" (by decide),
    tie_search_other "lake" (by decide),
    tie_search_other "beach" (by decide)]
  simp [addNonDuplicates, tie_dup_ab]

theorem tie_process :
    processCategory tieCalc tieSearch 12 77 10
      ((hotspot_categories.lookup "parks").getD []) = [tieRecA, tieRecB] := by
  unfold processCategory
  rw [show (hotspot_categories.lookup "parks").getD [] =
      ["park", "garden", "zoo", "lake", "beach"] from rfl]
  rw [tie_accumulate]
  rw [List.mergeSort_of_sorted]
  simp [distLe, tieRecA, tieRecB]

/-- C10: the `distance_km` stored in every produced record is the computed
distance rounded to two decimals; the per-category order ties on the rounded
value and keeps accumulation order for hits whose true distances differ
below the rounding granularity; and the radius filter compares the unrounded
distance, so a hit whose rounded distance is within the radius is still
dropped when its true distance is beyond it. -/
theorem distance_rounding_semantics :
    (∀ (calcDist : ℚ → ℚ → ℚ → ℚ → ℚ) (cl cn : ℚ) (q : String) (r : ℤ)
        (apiResult : Except String (Option (List ApiPlace))) (p : PlaceData),
      p ∈ search_nearby_places calcDist cl cn q r apiResult →
        p.distance_km = round2 (calcDist cl cn p.latitude p.longitude)) ∧
    (processCategory tieCalc tieSearch 12 77 10
        ((hotspot_categories.lookup "parks").getD []) = [tieRecA, tieRecB] ∧
      tieCalc 12 77 tieRecB.latitude tieRecB.longitude <
        tieCalc 12 77 tieRecA.latitude tieRecA.longitude ∧
      tieRecA.distance_km = tieRecB.distance_km) ∧
    (¬ tieCalc 12 77 (farHit.gps_latitude.getD 0)
        (farHit.gps_longitude.getD 0) ≤ ((10 : ℤ) : ℚ) ∧
      round2 (tieCalc 12 77 (farHit.gps_latitude.getD 0)
        (farHit.gps_longitude.getD 0)) ≤ ((10 : ℤ) : ℚ) ∧
      search_nearby_places tieCalc 12 77 "park" 10 (.ok (some [farHit])) =
        []) := by
  refine ⟨?_, ⟨tie_process, ?_, rfl⟩, ?_, ?_, ?_⟩
  · intro calcDist cl cn q r apiResult p hp
    unfold search_nearby_places at hp
    match hres : apiResult with
    | .error msg => simp at hp
    | .ok none => simp at hp
    | .ok (some hits) =>
      exact (@of_mem_processHits calcDist cl cn q r hits p (by simpa using hp)).2.1
  · norm_num [tieCalc, tieRecA, tieRecB]
  · norm_num [tieCalc, farHit]
  · rw [show tieCalc 12 77 (farHit.gps_latitude.getD 0)
        (farHit.gps_longitude.getD 0) = (10004 : ℚ)/1000 from rfl]
    unfold round2
    rw [round_eq]
    norm_num
  · unfold search_nearby_places
    norm_num [farHit, optTruthy, tieCalc, processHits]

/-- Witness for C10 applied at the concrete tie run: the stored distance of
`tieRecA` is the rounded computed distance. -/
theorem distance_rounding_semantics_witness :
    tieRecA.distance_km =
      round2 (tieCalc 12 77 tieRecA.latitude tieRecA.longitude) :=
  distance_rounding_semantics.1 tieCalc 12 77 "park" 10
    (.ok (some [tieHitA, tieHitB, farHit])) tieRecA
    (by
      have h : search_nearby_places tieCalc 12 77 "park" 10
          (.ok (some [tieHitA, tieHitB, farHit])) = [tieRecA, tieRecB] := by
        rw [show (Except.ok (some [tieHitA, tieHitB, farHit]) :
            Except String (Option (List ApiPlace))) = tieSearch "park"
          from rfl]
        exact tie_search_park
      rw [h]
      exact List.mem_cons_self _ _)

end HotspotFinder
